import Mathlib

/-
Shallow embedding of the `pipe-trait` Rust crate (src/lib.rs).

The crate defines a single trait `Pipe`, blanket-implemented for every type,
whose nine methods forward a value (by move, by shared borrow, by mutable
borrow, or through an `AsRef`/`AsMut`/`Deref`/`DerefMut`/`Borrow`/`BorrowMut`
conversion) to a caller-supplied closure `f` and return `f`'s result.

Embedding conventions:
- A method whose receiver is `self` (by move) consumes the value and returns
  only `f`'s result.
- A method whose receiver is `&'a self` cannot mutate or consume the value;
  the embedding makes that explicit by returning the post-call state of the
  receiver alongside `f`'s result, and the receiver comes back unchanged.
- A method whose receiver is `&'a mut self` hands `f` a mutable borrow; a
  closure over a mutable borrow of `X` is embedded as `X → Return × X`
  (its returned value together with the state it leaves behind), and the
  method returns `f`'s result together with the post-call state.
- A `Self: AsRef<Param>` / `Self: Deref<Target = Param>` /
  `Self: Borrow<Param>` bound is embedded as an explicit conversion function
  `X → P` standing for the trait implementation's method.
- A `Self: AsMut<Param>` / `Self: DerefMut<Target = Param>` /
  `Self: BorrowMut<Param>` bound is embedded as a lens `(view : X → P,
  update : X → P → X)`: `view` is the projection the mutable borrow exposes,
  `update` writes the mutated projection back into the receiver, which is how
  a mutable borrow of a sub-view propagates edits to the whole value.
-/

namespace PipeTrait

/-- `Pipe::pipe` (src/lib.rs lines 116-122): receiver `self` by move,
`Function: FnOnce(Self) -> Return`; the body is `f(self)`. -/
def pipe {X R : Type} (x : X) (f : X → R) : R :=
  f x

/-- `Pipe::pipe_ref` (src/lib.rs lines 137-142): receiver `&'a self`,
`Function: FnOnce(&'a Self) -> Return`; the body is `f(self)`. The shared
borrow means the receiver survives the call unchanged, so the embedding
returns it alongside `f`'s result. -/
def pipe_ref {X R : Type} (x : X) (f : X → R) : R × X :=
  (f x, x)

/-- `Pipe::pipe_mut` (src/lib.rs lines 156-161): receiver `&'a mut self`,
`Function: FnOnce(&'a mut Self) -> Return`; the body is `f(self)`. `f`
receives the whole value mutably, so the post-call state is whatever state
`f` leaves in the borrow. -/
def pipe_mut {X R : Type} (x : X) (f : X → R × X) : R × X :=
  f x

/-- `Pipe::pipe_as_ref` (src/lib.rs lines 176-183): receiver `&'a self` with
`Self: AsRef<Param>`; the body is `f(self.as_ref())`. `as_ref` embeds the
`AsRef<Param>` implementation. -/
def pipe_as_ref {X P R : Type} (x : X) (as_ref : X → P) (f : P → R) : R × X :=
  (f (as_ref x), x)

/-- `Pipe::pipe_as_mut` (src/lib.rs lines 198-205): receiver `&'a mut self`
with `Self: AsMut<Param>`; the body is `f(self.as_mut())`. The mutable
sub-view is embedded as the lens `(view, update)`: `f` edits the projection
`view x` and the edit is written back into the receiver by `update`. -/
def pipe_as_mut {X P R : Type} (x : X) (view : X → P) (update : X → P → X)
    (f : P → R × P) : R × X :=
  ((f (view x)).1, update x (f (view x)).2)

/-- `Pipe::pipe_deref` (src/lib.rs lines 220-227): receiver `&'a self` with
`Self: Deref<Target = Param>`; the body is `f(self)`, where `&self` deref-
coerces to `&Param`, i.e. `f(&*self)`. `deref` embeds the `Deref`
implementation. -/
def pipe_deref {X P R : Type} (x : X) (deref : X → P) (f : P → R) : R × X :=
  (f (deref x), x)

/-- `Pipe::pipe_deref_mut` (src/lib.rs lines 242-249): receiver `&'a mut self`
with `Self: DerefMut<Target = Param>`; the body is `f(self)`, coercing to
`f(&mut *self)`. Same lens embedding of the mutable sub-view as
`pipe_as_mut`. -/
def pipe_deref_mut {X P R : Type} (x : X) (view : X → P) (update : X → P → X)
    (f : P → R × P) : R × X :=
  ((f (view x)).1, update x (f (view x)).2)

/-- `Pipe::pipe_borrow` (src/lib.rs lines 264-271): receiver `&'a self` with
`Self: Borrow<Param>`; the body is `f(self.borrow())`. `borrow` embeds the
`Borrow<Param>` implementation. -/
def pipe_borrow {X P R : Type} (x : X) (borrow : X → P) (f : P → R) : R × X :=
  (f (borrow x), x)

/-- `Pipe::pipe_borrow_mut` (src/lib.rs lines 286-293): receiver
`&'a mut self` with `Self: BorrowMut<Param>`; the body is
`f(self.borrow_mut())`. Same lens embedding as `pipe_as_mut`. -/
def pipe_borrow_mut {X P R : Type} (x : X) (view : X → P) (update : X → P → X)
    (f : P → R × P) : R × X :=
  ((f (view x)).1, update x (f (view x)).2)

/-- The one-field struct `Foo(i32)` of the `pipe_ref` doc example and the
`pipe_ref` test in src/tests.rs. -/
structure Foo1 where
  field : Int
deriving DecidableEq, Repr

/-- The two-field struct `Foo(i32, i32)` of the `pipe_mut` doc example
(src/lib.rs lines 148-153). -/
structure Foo2 where
  field0 : Int
  field1 : Int
deriving DecidableEq, Repr

/-- C1: for every value `x` of a sized type and single-argument function `f`,
`pipe(x, f)` returns exactly `f(x)`: the value is consumed by move, passed by
value to `f`, and `f`'s result is returned unchanged. -/
theorem pipe_eq_direct_application {X R : Type} (x : X) (f : X → R) :
    pipe x f = f x :=
  rfl

/-- C2: for all values `x` and operations `f`, `g`, `h`, the chain
`x.pipe(f).pipe(g).pipe(h)` equals the nested application `h(g(f(x)))`; in
particular with `x = 3`, `f = n + 1`, `g = n + n`, `h = n * n` the chained
result is `64`. -/
theorem pipe_chain_eq_nested {X A B C : Type} (x : X) (f : X → A) (g : A → B)
    (h : B → C) :
    pipe (pipe (pipe x f) g) h = h (g (f x)) ∧
    pipe (pipe (pipe (3 : Int) (fun n => n + 1)) (fun n => n + n))
      (fun n => n * n) = 64 :=
  ⟨rfl, by decide⟩

/-- C3: `pipe_ref(x, f)` returns `f(&x)` and `pipe_borrow(x, f)` returns
`f(x.borrow())`, and in both cases the original value comes back to the
caller unchanged; concretely `Foo(12).pipe_ref(|a| a.field)` returns `12`
and the value remains `Foo(12)`. -/
theorem pipe_ref_borrow_frame {X P R : Type} (x : X) (f : X → R)
    (borrow : X → P) (g : P → R) :
    pipe_ref x f = (f x, x) ∧
    pipe_borrow x borrow g = (g (borrow x), x) ∧
    pipe_ref (Foo1.mk 12) (fun a => a.field) = (12, Foo1.mk 12) :=
  ⟨rfl, rfl, rfl⟩

/-- C4: `pipe_mut` hands `f` the whole value mutably, so the caller sees
exactly the state `f` leaves behind; `pipe_as_mut`, `pipe_deref_mut` and
`pipe_borrow_mut` hand `f` the mutable sub-view and write its edit back into
the value; concretely, piping `Foo(0,0)` through a closure setting `field0`
to `12` and then one setting `field1` to `34` leaves `Foo(12,34)`. -/
theorem pipe_mut_edits_visible {X P R : Type} (x : X) (f : X → R × X)
    (view : X → P) (update : X → P → X) (l : P → R × P) :
    (pipe_mut x f).2 = (f x).2 ∧
    (pipe_as_mut x view update l).2 = update x (l (view x)).2 ∧
    (pipe_deref_mut x view update l).2 = update x (l (view x)).2 ∧
    (pipe_borrow_mut x view update l).2 = update x (l (view x)).2 ∧
    (pipe_mut (pipe_mut (Foo2.mk 0 0)
        (fun a => ((), { a with field0 := 12 }))).2
      (fun a => ((), { a with field1 := 34 }))).2 = Foo2.mk 12 34 :=
  ⟨rfl, rfl, rfl, rfl, rfl⟩

/-- C5: each conversion-based immutable variant equals performing the
conversion manually and then calling `f`: `pipe_as_ref x f = f (x.as_ref())`,
`pipe_deref x f = f (&*x)` and `pipe_borrow x f = f (x.borrow())`. -/
theorem conversion_variants_eq_manual {X P R : Type} (x : X)
    (as_ref : X → P) (deref : X → P) (borrow : X → P) (f : P → R) :
    (pipe_as_ref x as_ref f).1 = f (as_ref x) ∧
    (pipe_deref x deref f).1 = f (deref x) ∧
    (pipe_borrow x borrow f).1 = f (borrow x) :=
  ⟨rfl, rfl, rfl⟩

/-- C6: every one of the nine chaining operations invokes the supplied
closure exactly once before returning: instrumenting the closure with a call
counter (each invocation contributes `1` to the count component of the
return value) yields a count of exactly `1` for each operation. -/
theorem pipe_calls_f_exactly_once {X P R : Type} (x : X) (f : X → R)
    (m : X → R × X) (conv : X → P) (g : P → R) (view : X → P)
    (update : X → P → X) (l : P → R × P) :
    (pipe x (fun y => (f y, (1 : Nat)))).2 = 1 ∧
    ((pipe_ref x (fun y => (f y, (1 : Nat)))).1).2 = 1 ∧
    ((pipe_mut x (fun y => (((m y).1, (1 : Nat)), (m y).2))).1).2 = 1 ∧
    ((pipe_as_ref x conv (fun p => (g p, (1 : Nat)))).1).2 = 1 ∧
    ((pipe_as_mut x view update
        (fun p => (((l p).1, (1 : Nat)), (l p).2))).1).2 = 1 ∧
    ((pipe_deref x conv (fun p => (g p, (1 : Nat)))).1).2 = 1 ∧
    ((pipe_deref_mut x view update
        (fun p => (((l p).1, (1 : Nat)), (l p).2))).1).2 = 1 ∧
    ((pipe_borrow x conv (fun p => (g p, (1 : Nat)))).1).2 = 1 ∧
    ((pipe_borrow_mut x view update
        (fun p => (((l p).1, (1 : Nat)), (l p).2))).1).2 = 1 :=
  ⟨rfl, rfl, rfl, rfl, rfl, rfl, rfl, rfl, rfl⟩

/-- C7: the chaining operations define no error path of their own: when the
closure returns an error (`Except.error` or `none`) it propagates unchanged
through `pipe` and through every one of the eight variants to the caller,
and when the closure returns normally each operation returns exactly that
outcome — no operation catches, wraps, or alters the closure's outcome. -/
theorem pipe_propagates_errors {X P E R : Type} (x : X)
    (f : X → Except E R) (m : X → Except E R × X)
    (conv : X → P) (g : P → Except E R)
    (view : X → P) (update : X → P → X) (l : P → Except E R × P)
    (o : X → Option R) :
    (∀ e, f x = Except.error e → pipe x f = Except.error e) ∧
    (∀ r, f x = Except.ok r → pipe x f = Except.ok r) ∧
    (o x = none → pipe x o = none) ∧
    pipe x f = f x ∧
    (pipe_ref x f).1 = f x ∧
    (∀ e, f x = Except.error e → (pipe_ref x f).1 = Except.error e) ∧
    (pipe_mut x m).1 = (m x).1 ∧
    (∀ e, (m x).1 = Except.error e → (pipe_mut x m).1 = Except.error e) ∧
    (pipe_as_ref x conv g).1 = g (conv x) ∧
    (∀ e, g (conv x) = Except.error e →
      (pipe_as_ref x conv g).1 = Except.error e) ∧
    (pipe_as_mut x view update l).1 = (l (view x)).1 ∧
    (∀ e, (l (view x)).1 = Except.error e →
      (pipe_as_mut x view update l).1 = Except.error e) ∧
    (pipe_deref x conv g).1 = g (conv x) ∧
    (∀ e, g (conv x) = Except.error e →
      (pipe_deref x conv g).1 = Except.error e) ∧
    (pipe_deref_mut x view update l).1 = (l (view x)).1 ∧
    (∀ e, (l (view x)).1 = Except.error e →
      (pipe_deref_mut x view update l).1 = Except.error e) ∧
    (pipe_borrow x conv g).1 = g (conv x) ∧
    (∀ e, g (conv x) = Except.error e →
      (pipe_borrow x conv g).1 = Except.error e) ∧
    (pipe_borrow_mut x view update l).1 = (l (view x)).1 ∧
    (∀ e, (l (view x)).1 = Except.error e →
      (pipe_borrow_mut x view update l).1 = Except.error e) :=
  ⟨fun _ he => he, fun _ hr => hr, fun hn => hn, rfl,
   rfl, fun _ he => he, rfl, fun _ he => he, rfl, fun _ he => he,
   rfl, fun _ he => he, rfl, fun _ he => he, rfl, fun _ he => he,
   rfl, fun _ he => he, rfl, fun _ he => he⟩

/-- Closed instance of C7: every one of the nine operations propagates a
concrete error unchanged, and `pipe` likewise forwards a concrete success
and a concrete `none` unchanged. -/
theorem pipe_propagates_errors_witness :
    pipe (0 : Int) (fun _ => (Except.error 7 : Except Nat Int)) =
      Except.error 7 ∧
    pipe (0 : Int) (fun n => (Except.ok n : Except Nat Int)) = Except.ok 0 ∧
    pipe (0 : Int) (fun _ => (none : Option Int)) = none ∧
    (pipe_ref (0 : Int)
      (fun _ => (Except.error 7 : Except Nat Int))).1 = Except.error 7 ∧
    (pipe_mut (0 : Int)
      (fun y => ((Except.error 7 : Except Nat Int), y))).1 =
      Except.error 7 ∧
    (pipe_as_ref (0 : Int) id
      (fun _ => (Except.error 7 : Except Nat Int))).1 = Except.error 7 ∧
    (pipe_as_mut (0 : Int) id (fun _ p => p)
      (fun p => ((Except.error 7 : Except Nat Int), p))).1 =
      Except.error 7 ∧
    (pipe_deref (0 : Int) id
      (fun _ => (Except.error 7 : Except Nat Int))).1 = Except.error 7 ∧
    (pipe_deref_mut (0 : Int) id (fun _ p => p)
      (fun p => ((Except.error 7 : Except Nat Int), p))).1 =
      Except.error 7 ∧
    (pipe_borrow (0 : Int) id
      (fun _ => (Except.error 7 : Except Nat Int))).1 = Except.error 7 ∧
    (pipe_borrow_mut (0 : Int) id (fun _ p => p)
      (fun p => ((Except.error 7 : Except Nat Int), p))).1 =
      Except.error 7 := by
  have H := pipe_propagates_errors (0 : Int)
    (fun _ => (Except.error 7 : Except Nat Int))
    (fun y => ((Except.error 7 : Except Nat Int), y))
    id (fun _ => (Except.error 7 : Except Nat Int))
    id (fun _ p => p)
    (fun p => ((Except.error 7 : Except Nat Int), p))
    (fun _ => (none : Option Int))
  have HOK := pipe_propagates_errors (0 : Int)
    (fun n => (Except.ok n : Except Nat Int))
    (fun y => ((Except.error 7 : Except Nat Int), y))
    id (fun _ => (Except.error 7 : Except Nat Int))
    id (fun _ p => p)
    (fun p => ((Except.error 7 : Except Nat Int), p))
    (fun _ => (none : Option Int))
  obtain ⟨h1, -, h3, -, -, h6, -, h8, -, h10, -, h12, -, h14, -, h16, -,
    h18, -, h20⟩ := H
  exact ⟨h1 7 rfl, HOK.2.1 0 rfl, h3 rfl, h6 7 rfl, h8 7 rfl, h10 7 rfl,
    h12 7 rfl, h14 7 rfl, h16 7 rfl, h18 7 rfl, h20 7 rfl⟩

/-- C8: identity law — piping any value through the identity function
returns the value unchanged: `x.pipe(identity) = x`. -/
theorem pipe_identity {X : Type} (x : X) : pipe x id = x :=
  rfl

/-- C9: the by-value `pipe` applies to borrowed references themselves, e.g.
a slice reference `r : &[i32]` (embedded as the list of its referent's
elements): `r.pipe(f) = f(r)` for any `f`, and concretely piping
`&[0, 1, 2, 3]` through concatenation with `[4, 5, 6]` yields
`[0, 1, 2, 3, 4, 5, 6]` as in the `slice` test. -/
theorem pipe_on_slice_reference {R : Type} (r : List Int)
    (f : List Int → R) :
    pipe r f = f r ∧
    pipe ([0, 1, 2, 3] : List Int) (fun s => s ++ [4, 5, 6]) =
      [0, 1, 2, 3, 4, 5, 6] :=
  ⟨rfl, rfl⟩

/-- C10: determinism — every chaining operation is a pure forwarding call:
two invocations of the same variant on equal values with equal operations
produce equal results, with no hidden state influencing the outcome. -/
theorem pipe_deterministic {X P R : Type} (x1 x2 : X) (f1 f2 : X → R)
    (m1 m2 : X → R × X) (c1 c2 : X → P) (g1 g2 : P → R)
    (v1 v2 : X → P) (u1 u2 : X → P → X) (l1 l2 : P → R × P)
    (hx : x1 = x2) (hf : f1 = f2) (hm : m1 = m2) (hc : c1 = c2)
    (hg : g1 = g2) (hv : v1 = v2) (hu : u1 = u2) (hl : l1 = l2) :
    pipe x1 f1 = pipe x2 f2 ∧
    pipe_ref x1 f1 = pipe_ref x2 f2 ∧
    pipe_mut x1 m1 = pipe_mut x2 m2 ∧
    pipe_as_ref x1 c1 g1 = pipe_as_ref x2 c2 g2 ∧
    pipe_as_mut x1 v1 u1 l1 = pipe_as_mut x2 v2 u2 l2 ∧
    pipe_deref x1 c1 g1 = pipe_deref x2 c2 g2 ∧
    pipe_deref_mut x1 v1 u1 l1 = pipe_deref_mut x2 v2 u2 l2 ∧
    pipe_borrow x1 c1 g1 = pipe_borrow x2 c2 g2 ∧
    pipe_borrow_mut x1 v1 u1 l1 = pipe_borrow_mut x2 v2 u2 l2 := by
  subst hx hf hm hc hg hv hu hl
  exact ⟨rfl, rfl, rfl, rfl, rfl, rfl, rfl, rfl, rfl⟩

/-- Closed instance of C10 at concrete inputs. -/
theorem pipe_deterministic_witness :
    pipe (5 : Int) (fun n => n + 1) = pipe (5 : Int) (fun n => n + 1) ∧
    pipe_ref (5 : Int) (fun n => n + 1) = pipe_ref (5 : Int) (fun n => n + 1) ∧
    pipe_mut (5 : Int) (fun n => (n, n + 1)) =
      pipe_mut (5 : Int) (fun n => (n, n + 1)) ∧
    pipe_as_ref (5 : Int) id (fun n => n + 1) =
      pipe_as_ref (5 : Int) id (fun n => n + 1) ∧
    pipe_as_mut (5 : Int) id (fun _ p => p) (fun n => (n, n + 1)) =
      pipe_as_mut (5 : Int) id (fun _ p => p) (fun n => (n, n + 1)) ∧
    pipe_deref (5 : Int) id (fun n => n + 1) =
      pipe_deref (5 : Int) id (fun n => n + 1) ∧
    pipe_deref_mut (5 : Int) id (fun _ p => p) (fun n => (n, n + 1)) =
      pipe_deref_mut (5 : Int) id (fun _ p => p) (fun n => (n, n + 1)) ∧
    pipe_borrow (5 : Int) id (fun n => n + 1) =
      pipe_borrow (5 : Int) id (fun n => n + 1) ∧
    pipe_borrow_mut (5 : Int) id (fun _ p => p) (fun n => (n, n + 1)) =
      pipe_borrow_mut (5 : Int) id (fun _ p => p) (fun n => (n, n + 1)) :=
  pipe_deterministic 5 5 (fun n => n + 1) (fun n => n + 1)
    (fun n => (n, n + 1)) (fun n => (n, n + 1)) id id
    (fun n => n + 1) (fun n => n + 1) id id (fun _ p => p) (fun _ p => p)
    (fun n => (n, n + 1)) (fun n => (n, n + 1))
    rfl rfl rfl rfl rfl rfl rfl rfl

end PipeTrait
